import Mathlib

/-!
Verification development for the TalosMapEditor repository.

The Python sources under `src/` are shallowly embedded below:

* Python `dict` objects become insertion-ordered association lists
  (`dget` / `dassign` / `dpop` / `dvalues` mirror `d.get`, `d[k] = v`,
  `d.pop(k, None)` and `d.values()`);
* Python `float` becomes `ℝ` (the code does ordinary arithmetic and
  trigonometry on floats; `math.cos`/`math.sin`/`np.radians` become
  `Real.cos`/`Real.sin` and multiplication by `π / 180`);
* Python `int` becomes `ℤ`, `None`-able values become `Option`;
* 4×4 numpy matrices become `Matrix (Fin 4) (Fin 4) ℝ` and `np.dot`
  becomes matrix/vector multiplication; `np.linalg.inv` becomes
  Mathlib's matrix inverse;
* mutating methods become functions from the owning object (or holder)
  to its updated value, paired with the Python return value.
-/

/-! ## Association-list model of Python dictionaries -/

/-- `d.get(k)` / `d[k]`: value of the first entry with key `a`. -/
def dget {α β : Type} [DecidableEq α] : List (α × β) → α → Option β
  | [], _ => none
  | (k, v) :: l, a => if k = a then some v else dget l a

/-- `d[k] = v`: replace the value of the first entry with key `a`
(keeping its position), or append a new entry. -/
def dassign {α β : Type} [DecidableEq α] : List (α × β) → α → β → List (α × β)
  | [], a, b => [(a, b)]
  | (k, v) :: l, a, b => if k = a then (k, b) :: l else (k, v) :: dassign l a b

/-- `d.pop(k, None)`: remove the first entry with key `a`, if any. -/
def dpop {α β : Type} [DecidableEq α] : List (α × β) → α → List (α × β)
  | [], _ => []
  | (k, v) :: l, a => if k = a then l else (k, v) :: dpop l a

/-- `list(d.values())`. -/
def dvalues {α β : Type} (l : List (α × β)) : List β := l.map Prod.snd

/-- `list(d.keys())`. -/
def dkeys {α β : Type} (l : List (α × β)) : List α := l.map Prod.fst

/-- Real dictionaries never hold two entries with one key. -/
def NodupKeys {α β : Type} (l : List (α × β)) : Prop := (dkeys l).Nodup

@[simp] theorem dkeys_nil {α β : Type} : dkeys ([] : List (α × β)) = [] := rfl

@[simp] theorem dkeys_cons {α β : Type} (k : α) (v : β) (l : List (α × β)) :
    dkeys ((k, v) :: l) = k :: dkeys l := rfl

@[simp] theorem dget_nil {α β : Type} [DecidableEq α] (a : α) :
    dget ([] : List (α × β)) a = none := rfl

theorem dget_cons {α β : Type} [DecidableEq α] (k : α) (v : β) (l : List (α × β)) (a : α) :
    dget ((k, v) :: l) a = if k = a then some v else dget l a := rfl

theorem dget_eq_none {α β : Type} [DecidableEq α] (l : List (α × β)) (x : α) :
    dget l x = none ↔ x ∉ dkeys l := by
  induction l with
  | nil => simp [dkeys]
  | cons hd tl ih =>
    obtain ⟨k, v⟩ := hd
    rcases eq_or_ne k x with hx | hx
    · subst hx
      simp [dget_cons, dkeys]
    · simp [dget_cons, hx, dkeys, ih, Ne.symm hx]

theorem dget_dassign {α β : Type} [DecidableEq α] (l : List (α × β)) (a : α) (b : β) (x : α) :
    dget (dassign l a b) x = if a = x then some b else dget l x := by
  induction l with
  | nil => simp [dassign, dget_cons]
  | cons hd tl ih =>
    obtain ⟨k, v⟩ := hd
    rcases eq_or_ne k a with hk | hk
    · subst hk
      rcases eq_or_ne k x with hx | hx
      · subst hx
        simp [dassign, dget_cons]
      · simp [dassign, dget_cons, hx]
    · rcases eq_or_ne k x with hx | hx
      · subst hx
        simp [dassign, if_neg hk, dget_cons, if_neg (Ne.symm hk)]
      · simp [dassign, if_neg hk, dget_cons, if_neg hx, ih]

theorem dget_dpop_ne {α β : Type} [DecidableEq α] (l : List (α × β)) (a x : α) (h : a ≠ x) :
    dget (dpop l a) x = dget l x := by
  induction l with
  | nil => simp [dpop]
  | cons hd tl ih =>
    obtain ⟨k, v⟩ := hd
    rcases eq_or_ne k a with hk | hk
    · subst hk
      simp [dpop, dget_cons, if_neg (fun hkx => h hkx)]
    · rcases eq_or_ne k x with hx | hx
      · subst hx
        simp [dpop, if_neg hk, dget_cons]
      · simp [dpop, if_neg hk, dget_cons, if_neg hx, ih]

theorem dkeys_dassign {α β : Type} [DecidableEq α] (l : List (α × β)) (a : α) (b : β) :
    dkeys (dassign l a b) = if a ∈ dkeys l then dkeys l else dkeys l ++ [a] := by
  induction l with
  | nil => simp [dassign, dkeys]
  | cons hd tl ih =>
    obtain ⟨k, v⟩ := hd
    rcases eq_or_ne k a with hk | hk
    · subst hk
      simp [dassign, dkeys]
    · simp only [dassign, if_neg hk, dkeys_cons, ih]
      rcases em (a ∈ dkeys tl) with hm | hm
      · simp [hm, List.mem_cons]
      · have hnot : a ∉ (k :: dkeys tl) := by
          simp [List.mem_cons, Ne.symm hk, hm]
        simp [hm, hnot]

theorem dkeys_dpop {α β : Type} [DecidableEq α] (l : List (α × β)) (a : α) :
    dkeys (dpop l a) = (dkeys l).erase a := by
  induction l with
  | nil => simp [dpop, dkeys]
  | cons hd tl ih =>
    obtain ⟨k, v⟩ := hd
    rcases eq_or_ne k a with hk | hk
    · subst hk
      simp [dpop, dkeys]
    · simp only [dpop, if_neg hk, dkeys_cons, ih]
      rw [List.erase_cons_tail (by simp [hk])]

theorem nodupKeys_dassign {α β : Type} [DecidableEq α] (l : List (α × β)) (a : α) (b : β)
    (h : NodupKeys l) : NodupKeys (dassign l a b) := by
  rw [NodupKeys, dkeys_dassign]
  rcases em (a ∈ dkeys l) with hm | hm
  · simpa [hm] using h
  · simp only [if_neg hm]
    simpa [List.nodup_append, hm] using h

theorem nodupKeys_dpop {α β : Type} [DecidableEq α] (l : List (α × β)) (a : α)
    (h : NodupKeys l) : NodupKeys (dpop l a) := by
  rw [NodupKeys, dkeys_dpop]
  exact List.Nodup.erase a h

theorem dget_dpop_self {α β : Type} [DecidableEq α] (l : List (α × β)) (a : α)
    (h : NodupKeys l) : dget (dpop l a) a = none := by
  rw [dget_eq_none, dkeys_dpop]
  exact List.Nodup.not_mem_erase h

theorem dpop_of_absent {α β : Type} [DecidableEq α] (l : List (α × β)) (a : α)
    (h : dget l a = none) : dpop l a = l := by
  induction l with
  | nil => rfl
  | cons hd tl ih =>
    obtain ⟨k, v⟩ := hd
    rcases eq_or_ne k a with hk | hk
    · simp [dget_cons, hk] at h
    · simp only [dget_cons, if_neg hk] at h
      simp [dpop, if_neg hk, ih h]

theorem mem_of_dget_eq_some {α β : Type} [DecidableEq α] {l : List (α × β)} {a : α} {b : β}
    (h : dget l a = some b) : (a, b) ∈ l := by
  induction l with
  | nil => simp at h
  | cons hd tl ih =>
    obtain ⟨k, v⟩ := hd
    rcases eq_or_ne k a with hk | hk
    · subst hk
      simp [dget_cons] at h
      simp [h]
    · simp only [dget_cons, if_neg hk] at h
      exact List.mem_cons_of_mem _ (ih h)

theorem dget_eq_some_of_mem {α β : Type} [DecidableEq α] {l : List (α × β)} {a : α} {b : β}
    (hnd : NodupKeys l) (h : (a, b) ∈ l) : dget l a = some b := by
  induction l with
  | nil => simp at h
  | cons hd tl ih =>
    obtain ⟨k, v⟩ := hd
    have hk_not : k ∉ dkeys tl := (List.nodup_cons.mp hnd).1
    have hnd_tl : NodupKeys tl := (List.nodup_cons.mp hnd).2
    rcases List.mem_cons.mp h with h | h
    · obtain ⟨h1, h2⟩ := Prod.mk.injEq .. ▸ h
      subst h1
      simp [dget_cons, h2.symm]
    · rcases eq_or_ne k a with hk | hk
      · subst hk
        exact absurd (by simpa [dkeys] using List.mem_map_of_mem Prod.fst h) hk_not
      · simp [dget_cons, if_neg hk, ih hnd_tl h]

/-! ## Backend data model (`src/components`) -/

/-- `StationType` dataclass from `src/components/station.py`. -/
structure StationType where
  name : String
  color : String
  description : String := ""
  port_x : ℝ := 1.5
  port_y : ℝ := 0.0
  port_direction : ℝ := 0.0

/-- Backend `PathNode` from `src/components/path.py`. -/
structure PathNode where
  position : ℝ × ℝ
  connected_paths : List ℤ := []
  id : Option ℤ := none
  direction : ℝ := 0.0
  name : Option String := none

/-- `PathNode.__init__(x, y, direction=0.0, id=None, name=None)`. -/
def PathNode.make (x y : ℝ) (direction : ℝ := 0.0) (id : Option ℤ := none)
    (name : Option String := none) : PathNode :=
  { position := (x, y), connected_paths := [], id := id, direction := direction, name := name }

/-- Backend `Station` from `src/components/station.py`. -/
structure Station where
  position : ℝ × ℝ
  station_type : StationType
  name : String
  id : Option ℤ
  size : ℝ × ℝ × ℝ
  direction : ℝ
  port : Option PathNode
  mesh_path : Option String

/-- `Station.__init__(x, y, station_type, name, id=None)`. -/
def Station.make (x y : ℝ) (station_type : StationType) (name : String)
    (id : Option ℤ := none) : Station :=
  { position := (x, y), station_type := station_type, name := name, id := id,
    size := (1.0, 1.0, 1.0), direction := 0.0, port := none, mesh_path := none }

/-- `Station.set_3d_size`. -/
def Station.set_3d_size (s : Station) (width length height : ℝ) : Station :=
  { s with size := (width, length, height) }

/-- `AGVStatus` string constants from `src/components/agv.py`. -/
def AGVStatus.UNKNOWN : String := "unknown"

/-- Backend `AGV` from `src/components/agv.py`. -/
structure AGV where
  name : String
  position : ℝ × ℝ
  size : ℝ × ℝ × ℝ
  id : Option ℤ
  max_speed : ℝ
  max_acc : ℝ
  max_dec : ℝ
  direction : ℝ
  status : String
  port : Option PathNode

/-- `AGV.__init__(name, position, size)`. -/
def AGV.make (name : String) (position : ℝ × ℝ) (size : ℝ × ℝ × ℝ) : AGV :=
  { name := name, position := position, size := size, id := none,
    max_speed := 1.0, max_acc := 0.5, max_dec := 0.5, direction := 0.0,
    status := AGVStatus.UNKNOWN, port := none }

/-! ## Identifier allocator (`src/components/id_manager.py`) -/

/-- `IDManager`: a single integer counter starting at 0. -/
structure IDManager where
  idCounter : ℤ

/-- `IDManager.__init__`. -/
def IDManager.make : IDManager := ⟨0⟩

/-- `IDManager.get_new_id`: increment the counter and return it
(updated manager, returned id). -/
def IDManager.get_new_id (m : IDManager) : IDManager × ℤ :=
  (⟨m.idCounter + 1⟩, m.idCounter + 1)

/-- `IDManager.reset`: set the counter back to zero. -/
def IDManager.reset (_m : IDManager) : IDManager := ⟨0⟩

/-- The ids returned by `n` successive `get_new_id` calls. -/
def IDManager.runIds : IDManager → ℕ → List ℤ
  | _, 0 => []
  | m, n + 1 => (m.get_new_id).2 :: (m.get_new_id).1.runIds n

theorem IDManager.runIds_eq (c : ℤ) (n : ℕ) :
    IDManager.runIds ⟨c⟩ n = (List.range n).map (fun i : ℕ => c + i + 1) := by
  induction n generalizing c with
  | zero => rfl
  | succ n ih =>
    rw [IDManager.runIds, List.range_succ_eq_map]
    simp only [IDManager.get_new_id, List.map_cons, List.map_map]
    rw [ih]
    have hfun : (fun i : ℕ => c + 1 + (i : ℤ) + 1) =
        ((fun i : ℕ => c + (i : ℤ) + 1) ∘ Nat.succ) := by
      funext i
      simp only [Function.comp_apply]
      push_cast
      ring
    rw [hfun]
    congr 1
    push_cast
    ring


/-! ## Entity store (`src/components/class_holder.py`) -/

/-- `ClassHolder`: backend storage keyed by id, with name indexes for
stations and AGVs. -/
structure ClassHolder where
  station_id_manager : IDManager
  agv_id_manager : IDManager
  path_id_manager : IDManager
  path_node_id_manager : IDManager
  stations : List (ℤ × Station)
  agvs : List (ℤ × AGV)
  path_nodes : List (ℤ × PathNode)
  stations_by_name : List (String × Station)
  agvs_by_name : List (String × AGV)
  station_types : List (String × StationType)

/-- `ClassHolder.__init__`. -/
def ClassHolder.make : ClassHolder :=
  { station_id_manager := IDManager.make, agv_id_manager := IDManager.make,
    path_id_manager := IDManager.make, path_node_id_manager := IDManager.make,
    stations := [], agvs := [], path_nodes := [],
    stations_by_name := [], agvs_by_name := [], station_types := [] }

/-- `ClassHolder.add_station` (allocates an id when absent, inserts into
the id map and — for a truthy name — the name map; returns the station). -/
def ClassHolder.add_station (h : ClassHolder) (station : Station) :
    ClassHolder × Station :=
  let p : ClassHolder × Station :=
    match station.id with
    | none =>
      let m := h.station_id_manager.get_new_id
      ({ h with station_id_manager := m.1 }, { station with id := some m.2 })
    | some _ => (h, station)
  let h := p.1
  let station := p.2
  let h := { h with stations := dassign h.stations (station.id.getD 0) station }
  let h :=
    if station.name ≠ "" then
      { h with stations_by_name := dassign h.stations_by_name station.name station }
    else h
  (h, station)

/-- `ClassHolder.get_station_by_id`. -/
def ClassHolder.get_station_by_id (h : ClassHolder) (station_id : ℤ) : Option Station :=
  dget h.stations station_id

/-- `ClassHolder.get_station_by_name`. -/
def ClassHolder.get_station_by_name (h : ClassHolder) (name : String) : Option Station :=
  dget h.stations_by_name name

/-- `ClassHolder.delete_station`.  The Python body has no `return`
statement, so its value is `None`; the second component records that
returned value in the claimed `Option Bool` protocol slot. -/
def ClassHolder.delete_station (h : ClassHolder) (station_id : ℤ) :
    ClassHolder × Option Bool :=
  let station := dget h.stations station_id
  let h := { h with stations := dpop h.stations station_id }
  match station with
  | some s =>
    if (dget h.stations_by_name s.name).isSome then
      ({ h with stations_by_name := dpop h.stations_by_name s.name }, none)
    else (h, none)
  | none => (h, none)

/-- `ClassHolder.get_all_stations`. -/
def ClassHolder.get_all_stations (h : ClassHolder) : List Station :=
  dvalues h.stations

/-- `ClassHolder.add_agv`. -/
def ClassHolder.add_agv (h : ClassHolder) (agv : AGV) : ClassHolder × AGV :=
  let p : ClassHolder × AGV :=
    match agv.id with
    | none =>
      let m := h.agv_id_manager.get_new_id
      ({ h with agv_id_manager := m.1 }, { agv with id := some m.2 })
    | some _ => (h, agv)
  let h := p.1
  let agv := p.2
  let h := { h with agvs := dassign h.agvs (agv.id.getD 0) agv }
  let h :=
    if agv.name ≠ "" then
      { h with agvs_by_name := dassign h.agvs_by_name agv.name agv }
    else h
  (h, agv)

/-- `ClassHolder.get_agv_by_id`. -/
def ClassHolder.get_agv_by_id (h : ClassHolder) (agv_id : ℤ) : Option AGV :=
  dget h.agvs agv_id

/-- `ClassHolder.get_agv_by_name`. -/
def ClassHolder.get_agv_by_name (h : ClassHolder) (name : String) : Option AGV :=
  dget h.agvs_by_name name

/-- `ClassHolder.delete_agv` (returns `None`, like `delete_station`). -/
def ClassHolder.delete_agv (h : ClassHolder) (agv_id : ℤ) : ClassHolder × Option Bool :=
  let agv := dget h.agvs agv_id
  let h := { h with agvs := dpop h.agvs agv_id }
  match agv with
  | some a =>
    if (dget h.agvs_by_name a.name).isSome then
      ({ h with agvs_by_name := dpop h.agvs_by_name a.name }, none)
    else (h, none)
  | none => (h, none)

/-- `ClassHolder.get_all_agvs`. -/
def ClassHolder.get_all_agvs (h : ClassHolder) : List AGV :=
  dvalues h.agvs

/-- `ClassHolder.add_path_node` (no name index for path nodes). -/
def ClassHolder.add_path_node (h : ClassHolder) (node : PathNode) :
    ClassHolder × PathNode :=
  let p : ClassHolder × PathNode :=
    match node.id with
    | none =>
      let m := h.path_node_id_manager.get_new_id
      ({ h with path_node_id_manager := m.1 }, { node with id := some m.2 })
    | some _ => (h, node)
  let h := p.1
  let node := p.2
  ({ h with path_nodes := dassign h.path_nodes (node.id.getD 0) node }, node)

/-- `ClassHolder.get_path_node_by_id`. -/
def ClassHolder.get_path_node_by_id (h : ClassHolder) (node_id : ℤ) : Option PathNode :=
  dget h.path_nodes node_id

/-- `ClassHolder.delete_path_node` (returns `None`). -/
def ClassHolder.delete_path_node (h : ClassHolder) (node_id : ℤ) :
    ClassHolder × Option Bool :=
  ({ h with path_nodes := dpop h.path_nodes node_id }, none)

/-- `ClassHolder.get_all_path_nodes`. -/
def ClassHolder.get_all_path_nodes (h : ClassHolder) : List PathNode :=
  dvalues h.path_nodes

/-! ## Concrete store scenarios -/

/-- The default "Loading" station type (port offset `(1.5, 0)`, port
direction `0` come from the dataclass defaults). -/
def stLoading : StationType :=
  { name := "Loading", color := "#4CAF50", description := "Loading station for materials" }

/-- A station named `"S1"` at `(2, 3)` with no id yet. -/
def c4Station : Station := Station.make 2 3 stLoading "S1"

/-- A holder holding just `c4Station` (which received id 1). -/
def c4Holder : ClassHolder := (ClassHolder.make.add_station c4Station).1

/-- Station `A` of the duplicate-name scenario: name `"n"`. -/
def stA : Station := Station.make 0 0 stLoading "n"

/-- Station `B` of the duplicate-name scenario: same name `"n"`. -/
def stB : Station := Station.make 1 1 stLoading "n"

/-- After `add(A)`: `A` received id 1. -/
def c2h1 : ClassHolder := (ClassHolder.make.add_station stA).1

/-- After `add(A); add(B)`: `B` received id 2. -/
def c2h2 : ClassHolder := (c2h1.add_station stB).1

/-- After `add(A); add(B); delete_station(1)`. -/
def c2h3 : ClassHolder := (c2h2.delete_station 1).1

/-- C8: the identifier allocator yields `1, 2, ..., N` over `N` calls
(`List.range N` mapped through `+1`, hence distinct and consecutive),
`get_new_id` always returns the previous counter plus one, and
`reset` makes the next call yield 1 again. -/
theorem idManager_next_consecutive_from_one :
    (∀ n : ℕ, IDManager.runIds IDManager.make n
        = (List.range n).map (fun i : ℕ => (i : ℤ) + 1)) ∧
    (∀ m : IDManager, m.get_new_id = (⟨m.idCounter + 1⟩, m.idCounter + 1)) ∧
    (∀ n : ℕ, (IDManager.runIds IDManager.make n).Nodup) ∧
    (∀ m : IDManager, (m.reset.get_new_id).2 = 1) := by
  have hrun : ∀ n : ℕ, IDManager.runIds IDManager.make n
      = (List.range n).map (fun i : ℕ => (i : ℤ) + 1) := by
    intro n
    have h := IDManager.runIds_eq 0 n
    have hfun : (fun i : ℕ => (0 : ℤ) + i + 1) = fun i : ℕ => (i : ℤ) + 1 := by
      funext i
      ring
    rw [IDManager.make, h, hfun]
  refine ⟨hrun, fun m => rfl, fun n => ?_, fun m => rfl⟩
  rw [hrun n]
  refine List.Nodup.map ?_ (List.nodup_range n)
  intro a b hab
  simp only [add_left_inj] at hab
  exact_mod_cast hab

/-- C4 counterexample: `delete_station` does remove the entity, but its
Python body has no `return` statement — the call evaluates to `None`,
never to `True` or `False`, so "returns whether anything was removed"
(and "returns false" for a missing id) fails on the code. -/
theorem delete_by_id_returns_none_not_bool :
    (∃ s, c4Holder.get_station_by_id 1 = some s) ∧
    (c4Holder.delete_station 1).2 = none ∧
    (c4Holder.delete_station 1).2 ≠ some true ∧
    ((c4Holder.delete_station 1).1).get_station_by_id 1 = none ∧
    (ClassHolder.make.delete_station 5).2 ≠ some false := by
  refine ⟨⟨{ c4Station with id := some 1 }, ?_⟩, ?_, ?_, ?_, ?_⟩ <;>
    simp [c4Holder, c4Station, ClassHolder.make, ClassHolder.add_station,
      ClassHolder.delete_station, ClassHolder.get_station_by_id, Station.make,
      IDManager.make, IDManager.get_new_id, dassign, dget, dpop]

/-- C2 counterexample: after `add(A)` (name `"n"`, id 1), `add(B)` (name
`"n"`, id 2), `delete_station(1)`, the holder still stores `B` under id 2
but the name lookup for `"n"` comes back empty: `delete_station` popped
the name entry keyed by the deleted station's name even though that entry
pointed at `B`. -/
theorem name_lookup_loses_entity_on_duplicate_delete :
    ({ stB with id := some 2 } : Station).name = "n" ∧
    c2h3.get_station_by_id 2 = some { stB with id := some 2 } ∧
    c2h3.get_station_by_name "n" = none := by
  refine ⟨rfl, ?_, ?_⟩ <;>
    simp [c2h3, c2h2, c2h1, stA, stB, ClassHolder.make, ClassHolder.add_station,
      ClassHolder.delete_station, ClassHolder.get_station_by_id,
      ClassHolder.get_station_by_name, Station.make, IDManager.make,
      IDManager.get_new_id, dassign, dget, dpop]

/-! ## Well-formedness of the paired id/name indexes -/

theorem dget_dpop_some {α β : Type} [DecidableEq α] {l : List (α × β)} {a x : α} {v : β}
    (hnd : NodupKeys l) (h : dget (dpop l a) x = some v) : dget l x = some v := by
  rcases eq_or_ne a x with hax | hax
  · subst hax
    rw [dget_dpop_self l a hnd] at h
    exact absurd h (by simp)
  · rwa [dget_dpop_ne l a x hax] at h

/-- The conditional name-index pop performed by the delete methods,
as a function of the value found in the id map. -/
def popName {β : Type} (byName : List (String × β)) (nameOf : β → String) :
    Option β → List (String × β)
  | some s => if (dget byName (nameOf s)).isSome then dpop byName (nameOf s) else byName
  | none => byName

/-- Invariant tying an id-keyed map to its name index: no duplicate
keys, stored id fields match keys, keys are bounded by the allocator
counter, every name entry points back into the id map under its own
nonempty name, and every stored entity with a nonempty name is
reachable through the name index. -/
def MapsWF {β : Type} (byId : List (ℤ × β)) (byName : List (String × β))
    (nameOf : β → String) (idOf : β → Option ℤ) (counter : ℤ) : Prop :=
  NodupKeys byId ∧ NodupKeys byName ∧
  (∀ k s, dget byId k = some s → idOf s = some k) ∧
  (∀ k, k ∈ dkeys byId → k ≤ counter) ∧
  (∀ n s, dget byName n = some s → n ≠ "" ∧ nameOf s = n ∧ ∃ k, dget byId k = some s) ∧
  (∀ k s, dget byId k = some s → nameOf s ≠ "" → dget byName (nameOf s) = some s)

theorem MapsWF.add {β : Type} {byId : List (ℤ × β)} {byName : List (String × β)}
    {nameOf : β → String} {idOf : β → Option ℤ} {c : ℤ}
    (h : MapsWF byId byName nameOf idOf c) (s : β) (hid : idOf s = some (c + 1))
    (hname : nameOf s = "" ∨ dget byName (nameOf s) = none) :
    MapsWF (dassign byId (c + 1) s)
      (if nameOf s ≠ "" then dassign byName (nameOf s) s else byName)
      nameOf idOf (c + 1) := by
  obtain ⟨hnd1, hnd2, hids, hbound, hdir1, hdir2⟩ := h
  have hfresh : (c + 1) ∉ dkeys byId := by
    intro hm
    have := hbound _ hm
    omega
  have hget_new : ∀ k, dget (dassign byId (c + 1) s) k
      = if c + 1 = k then some s else dget byId k := fun k => dget_dassign ..
  refine ⟨nodupKeys_dassign _ _ _ hnd1, ?_, ?_, ?_, ?_, ?_⟩
  · split
    · exact nodupKeys_dassign _ _ _ hnd2
    · exact hnd2
  · intro k t hkt
    rw [hget_new] at hkt
    split at hkt
    · next hkeq =>
      injection hkt with h0
      subst h0
      rw [← hkeq]
      exact hid
    · exact hids _ _ hkt
  · intro k hk
    rw [dkeys_dassign] at hk
    split at hk
    · exact le_trans (hbound _ hk) (by omega)
    · rcases List.mem_append.mp hk with hk | hk
      · exact le_trans (hbound _ hk) (by omega)
      · simp at hk
        omega
  · intro n t hnt
    have hold : dget byName n = some t → n ≠ "" ∧ nameOf t = n ∧
        ∃ x, dget (dassign byId (c + 1) s) x = some t := by
      intro hmem
      obtain ⟨h1, h2, x, hx⟩ := hdir1 _ _ hmem
      have hxne : c + 1 ≠ x := by
        intro he
        apply hfresh
        rw [he]
        simpa [dkeys] using List.mem_map_of_mem Prod.fst (mem_of_dget_eq_some hx)
      refine ⟨h1, h2, x, ?_⟩
      rw [hget_new, if_neg hxne]
      exact hx
    by_cases hne : nameOf s ≠ ""
    · rw [if_pos hne, dget_dassign] at hnt
      by_cases heq : nameOf s = n
      · rw [if_pos heq] at hnt
        injection hnt with h0
        subst h0
        refine ⟨heq ▸ hne, heq, c + 1, ?_⟩
        rw [hget_new, if_pos rfl]
      · rw [if_neg heq] at hnt
        exact hold hnt
    · rw [if_neg hne] at hnt
      exact hold hnt
  · intro x t hx htne
    rw [hget_new] at hx
    by_cases hk2 : c + 1 = x
    · rw [if_pos hk2] at hx
      injection hx with h0
      subst h0
      rw [if_pos htne, dget_dassign, if_pos rfl]
    · rw [if_neg hk2] at hx
      have hback := hdir2 _ _ hx htne
      rcases hname with hname | hname
      · rw [if_neg (by simp [hname])]
        exact hback
      · by_cases hne : nameOf s ≠ ""
        · rw [if_pos hne, dget_dassign, if_neg ?_]
          · exact hback
          · intro he
            rw [he, hback] at hname
            exact absurd hname (by simp)
        · rw [if_neg hne]
          exact hback

theorem MapsWF.delete {β : Type} {byId : List (ℤ × β)} {byName : List (String × β)}
    {nameOf : β → String} {idOf : β → Option ℤ} {c : ℤ}
    (h : MapsWF byId byName nameOf idOf c) (k : ℤ) :
    MapsWF (dpop byId k) (popName byName nameOf (dget byId k)) nameOf idOf c := by
  obtain ⟨hnd1, hnd2, hids, hbound, hdir1, hdir2⟩ := h
  rcases hk : dget byId k with _ | s
  · rw [dpop_of_absent _ _ hk]
    exact ⟨hnd1, hnd2, hids, hbound, hdir1, hdir2⟩
  · have hpop_id : ∀ x t, dget (dpop byId k) x = some t → dget byId x = some t ∧ x ≠ k := by
      intro x t hx
      refine ⟨dget_dpop_some hnd1 hx, fun he => ?_⟩
      subst he
      rw [dget_dpop_self _ _ hnd1] at hx
      exact absurd hx (by simp)
    have hpop_bound : ∀ x, x ∈ dkeys (dpop byId k) → x ≤ c := by
      intro x hx
      rw [dkeys_dpop] at hx
      exact hbound _ (List.mem_of_mem_erase hx)
    simp only [popName]
    split
    · next hsome =>
      refine ⟨nodupKeys_dpop _ _ hnd1, nodupKeys_dpop _ _ hnd2, ?_, hpop_bound, ?_, ?_⟩
      · intro x t hx
        exact hids _ _ (hpop_id _ _ hx).1
      · intro n t hnt
        have hns : nameOf s ≠ n := by
          intro he
          rw [he, dget_dpop_self _ _ hnd2] at hnt
          exact absurd hnt (by simp)
        rw [dget_dpop_ne _ _ _ hns] at hnt
        obtain ⟨h1, h2, x, hx⟩ := hdir1 _ _ hnt
        have hxk : x ≠ k := by
          intro he
          subst he
          rw [hx] at hk
          injection hk with h0
          subst h0
          exact hns h2
        refine ⟨h1, h2, x, ?_⟩
        rw [dget_dpop_ne _ _ _ (Ne.symm hxk)]
        exact hx
      · intro x t hx htne
        obtain ⟨hx2, hxk⟩ := hpop_id _ _ hx
        have hbt := hdir2 _ _ hx2 htne
        have hts : nameOf t ≠ nameOf s := by
          intro he
          rw [he] at hbt htne
          have hbs := hdir2 _ _ hk htne
          rw [hbt] at hbs
          injection hbs with h0
          subst h0
          have e1 := hids _ _ hx2
          have e2 := hids _ _ hk
          rw [e1] at e2
          injection e2 with h1
          exact hxk h1
        rw [dget_dpop_ne _ _ _ (Ne.symm hts)]
        exact hbt
    · next hnone =>
      have hnone2 : dget byName (nameOf s) = none := by
        rcases hx : dget byName (nameOf s) with _ | t
        · rfl
        · exact absurd (by simp [hx]) hnone
      refine ⟨nodupKeys_dpop _ _ hnd1, hnd2, ?_, hpop_bound, ?_, ?_⟩
      · intro x t hx
        exact hids _ _ (hpop_id _ _ hx).1
      · intro n t hnt
        obtain ⟨h1, h2, x, hx⟩ := hdir1 _ _ hnt
        have hxk : x ≠ k := by
          intro he
          subst he
          rw [hx] at hk
          injection hk with h0
          subst h0
          rw [h2, hnt] at hnone2
          exact absurd hnone2 (by simp)
        refine ⟨h1, h2, x, ?_⟩
        rw [dget_dpop_ne _ _ _ (Ne.symm hxk)]
        exact hx
      · intro x t hx htne
        obtain ⟨hx2, hxk⟩ := hpop_id _ _ hx
        exact hdir2 _ _ hx2 htne

/-- `MapsWF` instantiated at the station maps of a holder. -/
def StationMapsWF (h : ClassHolder) : Prop :=
  MapsWF h.stations h.stations_by_name Station.name Station.id
    h.station_id_manager.idCounter

/-- `MapsWF` instantiated at the AGV maps of a holder. -/
def AGVMapsWF (h : ClassHolder) : Prop :=
  MapsWF h.agvs h.agvs_by_name AGV.name AGV.id h.agv_id_manager.idCounter

theorem stationMapsWF_make : StationMapsWF ClassHolder.make := by
  simp [StationMapsWF, MapsWF, ClassHolder.make, NodupKeys]

theorem agvMapsWF_make : AGVMapsWF ClassHolder.make := by
  simp [AGVMapsWF, MapsWF, ClassHolder.make, NodupKeys]

theorem add_station_fields (h : ClassHolder) (st : Station) (hid : st.id = none) :
    (h.add_station st).1.stations
        = dassign h.stations (h.station_id_manager.idCounter + 1)
            { st with id := some (h.station_id_manager.idCounter + 1) } ∧
    (h.add_station st).1.stations_by_name
        = (if st.name ≠ "" then
            dassign h.stations_by_name st.name
              { st with id := some (h.station_id_manager.idCounter + 1) }
          else h.stations_by_name) ∧
    (h.add_station st).1.station_id_manager.idCounter
        = h.station_id_manager.idCounter + 1 := by
  refine ⟨?_, ?_, ?_⟩ <;>
    simp [ClassHolder.add_station, hid, IDManager.get_new_id,
      apply_ite ClassHolder.stations, apply_ite ClassHolder.stations_by_name,
      apply_ite ClassHolder.station_id_manager, ite_self]

theorem delete_station_fields (h : ClassHolder) (k : ℤ) :
    (h.delete_station k).1.stations = dpop h.stations k ∧
    (h.delete_station k).1.stations_by_name
        = popName h.stations_by_name Station.name (dget h.stations k) ∧
    (h.delete_station k).1.station_id_manager = h.station_id_manager ∧
    (h.delete_station k).2 = none := by
  rcases hk : dget h.stations k with _ | s <;>
    refine ⟨?_, ?_, ?_, ?_⟩ <;>
    simp only [ClassHolder.delete_station, hk, popName] <;>
    split <;> rfl

theorem stationMapsWF_add (h : ClassHolder) (st : Station) (hWF : StationMapsWF h)
    (hid : st.id = none)
    (hname : st.name = "" ∨ h.get_station_by_name st.name = none) :
    StationMapsWF (h.add_station st).1 := by
  obtain ⟨h1, h2, h3⟩ := add_station_fields h st hid
  have hadd := MapsWF.add (β := Station) hWF
      { st with id := some (h.station_id_manager.idCounter + 1) } rfl
      (by rcases hname with h0 | h0
          · exact Or.inl h0
          · exact Or.inr h0)
  rw [StationMapsWF, h1, h2, h3]
  simpa using hadd

theorem stationMapsWF_delete (h : ClassHolder) (k : ℤ) (hWF : StationMapsWF h) :
    StationMapsWF (h.delete_station k).1 := by
  obtain ⟨h1, h2, h3, _⟩ := delete_station_fields h k
  have hdel := MapsWF.delete (β := Station) hWF k
  rw [StationMapsWF, h1, h2, h3]
  exact hdel

theorem add_agv_fields (h : ClassHolder) (a : AGV) (hid : a.id = none) :
    (h.add_agv a).1.agvs
        = dassign h.agvs (h.agv_id_manager.idCounter + 1)
            { a with id := some (h.agv_id_manager.idCounter + 1) } ∧
    (h.add_agv a).1.agvs_by_name
        = (if a.name ≠ "" then
            dassign h.agvs_by_name a.name
              { a with id := some (h.agv_id_manager.idCounter + 1) }
          else h.agvs_by_name) ∧
    (h.add_agv a).1.agv_id_manager.idCounter = h.agv_id_manager.idCounter + 1 := by
  refine ⟨?_, ?_, ?_⟩ <;>
    simp [ClassHolder.add_agv, hid, IDManager.get_new_id,
      apply_ite ClassHolder.agvs, apply_ite ClassHolder.agvs_by_name,
      apply_ite ClassHolder.agv_id_manager, ite_self]

theorem delete_agv_fields (h : ClassHolder) (k : ℤ) :
    (h.delete_agv k).1.agvs = dpop h.agvs k ∧
    (h.delete_agv k).1.agvs_by_name
        = popName h.agvs_by_name AGV.name (dget h.agvs k) ∧
    (h.delete_agv k).1.agv_id_manager = h.agv_id_manager ∧
    (h.delete_agv k).2 = none := by
  rcases hk : dget h.agvs k with _ | a <;>
    refine ⟨?_, ?_, ?_, ?_⟩ <;>
    simp only [ClassHolder.delete_agv, hk, popName] <;>
    split <;> rfl

theorem agvMapsWF_add (h : ClassHolder) (a : AGV) (hWF : AGVMapsWF h)
    (hid : a.id = none)
    (hname : a.name = "" ∨ h.get_agv_by_name a.name = none) :
    AGVMapsWF (h.add_agv a).1 := by
  obtain ⟨h1, h2, h3⟩ := add_agv_fields h a hid
  have hadd := MapsWF.add (β := AGV) hWF
      { a with id := some (h.agv_id_manager.idCounter + 1) } rfl
      (by rcases hname with h0 | h0
          · exact Or.inl h0
          · exact Or.inr h0)
  rw [AGVMapsWF, h1, h2, h3]
  simpa using hadd

theorem agvMapsWF_delete (h : ClassHolder) (k : ℤ) (hWF : AGVMapsWF h) :
    AGVMapsWF (h.delete_agv k).1 := by
  obtain ⟨h1, h2, h3, _⟩ := delete_agv_fields h k
  have hdel := MapsWF.delete (β := AGV) hWF k
  rw [AGVMapsWF, h1, h2, h3]
  exact hdel

theorem delete_station_noop (h : ClassHolder) (k : ℤ)
    (hk : h.get_station_by_id k = none) : (h.delete_station k).1 = h := by
  rw [ClassHolder.get_station_by_id] at hk
  simp only [ClassHolder.delete_station, hk, dpop_of_absent _ _ hk]

theorem delete_agv_noop (h : ClassHolder) (k : ℤ)
    (hk : h.get_agv_by_id k = none) : (h.delete_agv k).1 = h := by
  rw [ClassHolder.get_agv_by_id] at hk
  simp only [ClassHolder.delete_agv, hk, dpop_of_absent _ _ hk]

theorem delete_path_node_noop (h : ClassHolder) (k : ℤ)
    (hk : h.get_path_node_by_id k = none) : (h.delete_path_node k).1 = h := by
  rw [ClassHolder.get_path_node_by_id] at hk
  simp only [ClassHolder.delete_path_node, dpop_of_absent _ _ hk]

theorem delete_station_removes_id (h : ClassHolder) (k : ℤ)
    (hnd : NodupKeys h.stations) :
    (h.delete_station k).1.get_station_by_id k = none := by
  obtain ⟨h1, _, _, _⟩ := delete_station_fields h k
  rw [ClassHolder.get_station_by_id, h1]
  exact dget_dpop_self _ _ hnd

theorem delete_agv_removes_id (h : ClassHolder) (k : ℤ)
    (hnd : NodupKeys h.agvs) :
    (h.delete_agv k).1.get_agv_by_id k = none := by
  obtain ⟨h1, _, _, _⟩ := delete_agv_fields h k
  rw [ClassHolder.get_agv_by_id, h1]
  exact dget_dpop_self _ _ hnd

theorem delete_path_node_removes_id (h : ClassHolder) (k : ℤ)
    (hnd : NodupKeys h.path_nodes) :
    (h.delete_path_node k).1.get_path_node_by_id k = none := by
  rw [ClassHolder.get_path_node_by_id, ClassHolder.delete_path_node]
  exact dget_dpop_self _ _ hnd

theorem delete_station_removes_name (h : ClassHolder) (k : ℤ) (s : Station)
    (hnd2 : NodupKeys h.stations_by_name) (hk : h.get_station_by_id k = some s) :
    (h.delete_station k).1.get_station_by_name s.name = none := by
  obtain ⟨_, h2, _, _⟩ := delete_station_fields h k
  rw [ClassHolder.get_station_by_id] at hk
  rw [ClassHolder.get_station_by_name, h2, hk]
  simp only [popName]
  split
  · exact dget_dpop_self _ _ hnd2
  · next hns =>
    rcases hx : dget h.stations_by_name s.name with _ | t
    · rfl
    · exact absurd (by simp [hx]) hns

theorem delete_agv_removes_name (h : ClassHolder) (k : ℤ) (a : AGV)
    (hnd2 : NodupKeys h.agvs_by_name) (hk : h.get_agv_by_id k = some a) :
    (h.delete_agv k).1.get_agv_by_name a.name = none := by
  obtain ⟨_, h2, _, _⟩ := delete_agv_fields h k
  rw [ClassHolder.get_agv_by_id] at hk
  rw [ClassHolder.get_agv_by_name, h2, hk]
  simp only [popName]
  split
  · exact dget_dpop_self _ _ hnd2
  · next hns =>
    rcases hx : dget h.agvs_by_name a.name with _ | t
    · rfl
    · exact absurd (by simp [hx]) hns

theorem add_station_ret_id (h : ClassHolder) (st : Station) (hid : st.id = none) :
    (h.add_station st).2.id = some (h.station_id_manager.idCounter + 1) := by
  simp [ClassHolder.add_station, hid, IDManager.get_new_id]

theorem get_after_add_delete_station (h : ClassHolder) (st : Station)
    (hid : st.id = none) (hnd : NodupKeys h.stations) :
    (((h.add_station st).1.delete_station ((h.add_station st).2.id.getD 0)).1).get_station_by_id
      ((h.add_station st).2.id.getD 0) = none := by
  obtain ⟨h1, _, _⟩ := add_station_fields h st hid
  have hnd2 : NodupKeys (h.add_station st).1.stations := by
    rw [h1]
    exact nodupKeys_dassign _ _ _ hnd
  exact delete_station_removes_id _ _ hnd2

theorem add_agv_ret_id (h : ClassHolder) (a : AGV) (hid : a.id = none) :
    (h.add_agv a).2.id = some (h.agv_id_manager.idCounter + 1) := by
  simp [ClassHolder.add_agv, hid, IDManager.get_new_id]

theorem get_after_add_delete_agv (h : ClassHolder) (a : AGV)
    (hid : a.id = none) (hnd : NodupKeys h.agvs) :
    (((h.add_agv a).1.delete_agv ((h.add_agv a).2.id.getD 0)).1).get_agv_by_id
      ((h.add_agv a).2.id.getD 0) = none := by
  obtain ⟨h1, _, _⟩ := add_agv_fields h a hid
  have hnd2 : NodupKeys (h.add_agv a).1.agvs := by
    rw [h1]
    exact nodupKeys_dassign _ _ _ hnd
  exact delete_agv_removes_id _ _ hnd2

theorem add_path_node_nodes (h : ClassHolder) (node : PathNode) (hid : node.id = none) :
    (h.add_path_node node).1.path_nodes
      = dassign h.path_nodes (h.path_node_id_manager.idCounter + 1)
          { node with id := some (h.path_node_id_manager.idCounter + 1) } := by
  simp [ClassHolder.add_path_node, hid, IDManager.get_new_id]

theorem get_after_add_delete_path_node (h : ClassHolder) (node : PathNode)
    (hid : node.id = none) (hnd : NodupKeys h.path_nodes) :
    (((h.add_path_node node).1.delete_path_node
        ((h.add_path_node node).2.id.getD 0)).1).get_path_node_by_id
      ((h.add_path_node node).2.id.getD 0) = none := by
  have hnd2 : NodupKeys (h.add_path_node node).1.path_nodes := by
    rw [add_path_node_nodes h node hid]
    exact nodupKeys_dassign _ _ _ hnd
  exact delete_path_node_removes_id _ _ hnd2

/-- C2 (amended): for a well-formed store in which no two stored
entities share a (nonempty) name, the name index stays consistent with
the id map under add (of a fresh-named or unnamed entity through the
normal id-allocation path) and delete, for stations and AGVs alike:
`get_by_name(n)` returns exactly the stored entity named `n`.  (With a
duplicated name the code instead drops the shared name entry on delete,
as the counterexample shows.) -/
theorem name_index_consistent_under_unique_names :
    (StationMapsWF ClassHolder.make ∧ AGVMapsWF ClassHolder.make) ∧
    (∀ (h : ClassHolder) (st : Station), StationMapsWF h → st.id = none →
      (st.name = "" ∨ h.get_station_by_name st.name = none) →
      StationMapsWF (h.add_station st).1) ∧
    (∀ (h : ClassHolder) (k : ℤ), StationMapsWF h →
      StationMapsWF (h.delete_station k).1) ∧
    (∀ (h : ClassHolder), StationMapsWF h →
      (∀ n s, h.get_station_by_name n = some s →
        s.name = n ∧ ∃ k, h.get_station_by_id k = some s) ∧
      (∀ k s, h.get_station_by_id k = some s → s.name ≠ "" →
        h.get_station_by_name s.name = some s)) ∧
    (∀ (h : ClassHolder) (a : AGV), AGVMapsWF h → a.id = none →
      (a.name = "" ∨ h.get_agv_by_name a.name = none) →
      AGVMapsWF (h.add_agv a).1) ∧
    (∀ (h : ClassHolder) (k : ℤ), AGVMapsWF h → AGVMapsWF (h.delete_agv k).1) ∧
    (∀ (h : ClassHolder), AGVMapsWF h →
      (∀ n a, h.get_agv_by_name n = some a →
        a.name = n ∧ ∃ k, h.get_agv_by_id k = some a) ∧
      (∀ k a, h.get_agv_by_id k = some a → a.name ≠ "" →
        h.get_agv_by_name a.name = some a)) := by
  refine ⟨⟨stationMapsWF_make, agvMapsWF_make⟩, stationMapsWF_add,
    stationMapsWF_delete, ?_, agvMapsWF_add, agvMapsWF_delete, ?_⟩
  · intro h hWF
    obtain ⟨_, _, _, _, hdir1, hdir2⟩ := hWF
    exact ⟨fun n s hn => ⟨(hdir1 n s hn).2.1, (hdir1 n s hn).2.2⟩, hdir2⟩
  · intro h hWF
    obtain ⟨_, _, _, _, hdir1, hdir2⟩ := hWF
    exact ⟨fun n a hn => ⟨(hdir1 n a hn).2.1, (hdir1 n a hn).2.2⟩, hdir2⟩

/-- Witness for the amended C2 theorem at concrete inputs: adding
station `"S1"` to the empty holder and deleting id 1 keeps the station
maps well-formed. -/
theorem name_index_consistent_under_unique_names_witness :
    StationMapsWF ((ClassHolder.make.add_station c4Station).1.delete_station 1).1 :=
  name_index_consistent_under_unique_names.2.2.1
    (ClassHolder.make.add_station c4Station).1 1
    (name_index_consistent_under_unique_names.2.1 ClassHolder.make c4Station
      stationMapsWF_make rfl (Or.inr rfl))

/-- C4 (amended): for every entity class, `delete_by_id` removes the
entity from the id index and (for stations and AGVs) the entry stored
under the deleted entity's name in the name index; deleting an id not
present is a no-op that leaves the store unchanged; and after `add`
followed by `delete_by_id` of the assigned id, `get_by_id` reports not
found.  The deletion methods, however, have no `return` statement:
every call returns `None`, so no removal indicator is reported. -/
theorem delete_by_id_amended_semantics :
    (∀ (h : ClassHolder) (k : ℤ), h.get_station_by_id k = none →
      (h.delete_station k).1 = h) ∧
    (∀ (h : ClassHolder) (k : ℤ), h.get_agv_by_id k = none →
      (h.delete_agv k).1 = h) ∧
    (∀ (h : ClassHolder) (k : ℤ), h.get_path_node_by_id k = none →
      (h.delete_path_node k).1 = h) ∧
    (∀ (h : ClassHolder) (k : ℤ), (h.delete_station k).2 = none) ∧
    (∀ (h : ClassHolder) (k : ℤ), (h.delete_agv k).2 = none) ∧
    (∀ (h : ClassHolder) (k : ℤ), (h.delete_path_node k).2 = none) ∧
    (∀ (h : ClassHolder) (k : ℤ), NodupKeys h.stations →
      (h.delete_station k).1.get_station_by_id k = none) ∧
    (∀ (h : ClassHolder) (k : ℤ), NodupKeys h.agvs →
      (h.delete_agv k).1.get_agv_by_id k = none) ∧
    (∀ (h : ClassHolder) (k : ℤ), NodupKeys h.path_nodes →
      (h.delete_path_node k).1.get_path_node_by_id k = none) ∧
    (∀ (h : ClassHolder) (k : ℤ) (s : Station), NodupKeys h.stations_by_name →
      h.get_station_by_id k = some s →
      (h.delete_station k).1.get_station_by_name s.name = none) ∧
    (∀ (h : ClassHolder) (k : ℤ) (a : AGV), NodupKeys h.agvs_by_name →
      h.get_agv_by_id k = some a →
      (h.delete_agv k).1.get_agv_by_name a.name = none) ∧
    (∀ (h : ClassHolder) (st : Station), st.id = none → NodupKeys h.stations →
      (((h.add_station st).1.delete_station
          ((h.add_station st).2.id.getD 0)).1).get_station_by_id
        ((h.add_station st).2.id.getD 0) = none) ∧
    (∀ (h : ClassHolder) (a : AGV), a.id = none → NodupKeys h.agvs →
      (((h.add_agv a).1.delete_agv ((h.add_agv a).2.id.getD 0)).1).get_agv_by_id
        ((h.add_agv a).2.id.getD 0) = none) ∧
    (∀ (h : ClassHolder) (node : PathNode), node.id = none → NodupKeys h.path_nodes →
      (((h.add_path_node node).1.delete_path_node
          ((h.add_path_node node).2.id.getD 0)).1).get_path_node_by_id
        ((h.add_path_node node).2.id.getD 0) = none) :=
  ⟨delete_station_noop, delete_agv_noop, delete_path_node_noop,
    fun h k => (delete_station_fields h k).2.2.2,
    fun h k => (delete_agv_fields h k).2.2.2,
    fun _ _ => rfl,
    delete_station_removes_id, delete_agv_removes_id, delete_path_node_removes_id,
    fun h k s hnd hk => delete_station_removes_name h k s hnd hk,
    fun h k a hnd hk => delete_agv_removes_name h k a hnd hk,
    fun h st hid hnd => get_after_add_delete_station h st hid hnd,
    fun h a hid hnd => get_after_add_delete_agv h a hid hnd,
    fun h node hid hnd => get_after_add_delete_path_node h node hid hnd⟩

/-- Witness for the amended C4 theorem at concrete inputs: deleting the
missing id 5 from the empty holder is a no-op, and add-then-delete of
station `"S1"` leaves its id unresolvable. -/
theorem delete_by_id_amended_semantics_witness :
    (ClassHolder.make.delete_station 5).1 = ClassHolder.make ∧
    (((ClassHolder.make.add_station c4Station).1.delete_station
        ((ClassHolder.make.add_station c4Station).2.id.getD 0)).1).get_station_by_id
      ((ClassHolder.make.add_station c4Station).2.id.getD 0) = none :=
  ⟨delete_by_id_amended_semantics.1 ClassHolder.make 5 rfl,
    delete_by_id_amended_semantics.2.2.2.2.2.2.2.2.2.2.2.1 ClassHolder.make c4Station rfl
      (by simp [ClassHolder.make, NodupKeys])⟩

/-! ## Geometry helpers and 2D visual proxies -/

/-- Python float `x % y` for a positive modulus: `x - y * floor(x / y)`. -/
noncomputable def pymod (x y : ℝ) : ℝ := x - y * ⌊x / y⌋

/-- Counter-clockwise rotation of a 2D point by an angle in degrees
(the spec's `rotate`), for comparison with the code's port formula. -/
noncomputable def rotate2d (p : ℝ × ℝ) (degrees : ℝ) : ℝ × ℝ :=
  (p.1 * Real.cos (degrees * Real.pi / 180) - p.2 * Real.sin (degrees * Real.pi / 180),
   p.1 * Real.sin (degrees * Real.pi / 180) + p.2 * Real.cos (degrees * Real.pi / 180))

/-- The port data computed by `QStation._update_port` (station.py lines
110–115): world position `(port_x, port_y)` and heading, from the
station's position, direction and its type's port fields. -/
noncomputable def updatePortData (st : Station) : ℝ × ℝ × ℝ :=
  let angle := st.direction * Real.pi / 180
  let port_x := st.position.1 + st.station_type.port_x * Real.cos angle
    - st.station_type.port_y * Real.sin angle
  let port_y := st.position.2 + st.station_type.port_x * Real.sin angle
    + st.station_type.port_y * Real.cos angle
  let port_direction := pymod (st.direction + st.station_type.port_direction) 360
  (port_x, port_y, port_direction)

/-- The rectangle handed to `QGraphicsRectItem.__init__` by
`QStation.__init__` (station.py line 93): `(left, top, width, height)`
in scene units; `size[0]` is the station width, `size[1]` its length. -/
noncomputable def qstationRect (st : Station) : ℝ × ℝ × ℝ × ℝ :=
  (st.position.1 * 100 - st.size.2.1 / 2 * 100,
   -(st.position.2 * 100) - st.size.1 / 2 * 100,
   st.size.2.1 * 100, st.size.1 * 100)

/-- The rectangle handed to `QGraphicsEllipseItem.__init__` by
`QPathNode.__init__` (path.py line 51) with `node_size = 10`. -/
noncomputable def qpathNodeRect (node : PathNode) : ℝ × ℝ × ℝ × ℝ :=
  (node.position.1 * 100 - 10 / 2, -(node.position.2 * 100) - 10 / 2, 10, 10)

/-- The point handed to `setPos` by `QAGV.__init__` (agv.py line 48). -/
noncomputable def qagvScenePos (agv : AGV) : ℝ × ℝ :=
  (agv.position.1 * 100, -(agv.position.2 * 100))

/-- Center of a `(left, top, width, height)` rectangle. -/
noncomputable def rectCenter (r : ℝ × ℝ × ℝ × ℝ) : ℝ × ℝ :=
  (r.1 + r.2.2.1 / 2, r.2.1 + r.2.2.2 / 2)

/-- The station of the spec's port scenario: position `(2, 3)`,
direction 90°, type `"Loading"` with port offset `(1.5, 0)` and port
direction 0. -/
def c1Station : Station := { Station.make 2 3 stLoading "S" with direction := 90 }

/-- C10: each 2D proxy is centered at scene coordinates
`(100·x, −100·y)` for a backend entity at `(x, y)` meters — the
meter-to-scene conversion multiplies by 100 and flips the y axis. -/
theorem proxy_scene_position_scale_and_y_flip :
    (∀ agv : AGV, qagvScenePos agv
        = (100 * agv.position.1, -(100 * agv.position.2))) ∧
    (∀ node : PathNode, rectCenter (qpathNodeRect node)
        = (100 * node.position.1, -(100 * node.position.2))) ∧
    (∀ st : Station, rectCenter (qstationRect st)
        = (100 * st.position.1, -(100 * st.position.2))) := by
  refine ⟨fun agv => ?_, fun node => ?_, fun st => ?_⟩ <;>
    simp only [qagvScenePos, qpathNodeRect, qstationRect, rectCenter, Prod.mk.injEq] <;>
    constructor <;> ring

/-- C1: the formula in `QStation._update_port` places the derived port
at `rotate((port_x, port_y), direction) + position` with heading
`(direction + port_direction) mod 360`; at the spec's scenario —
station `(2, 3)`, direction 90°, offset `(1.5, 0)`, port direction 0 —
it yields world position `(2, 4.5)` and heading 90.  (At runtime the
method never completes: see the claim's code-bug record.) -/
theorem qstation_update_port_formula :
    (∀ st : Station,
      (updatePortData st).1
          = (rotate2d (st.station_type.port_x, st.station_type.port_y) st.direction).1
            + st.position.1 ∧
      (updatePortData st).2.1
          = (rotate2d (st.station_type.port_x, st.station_type.port_y) st.direction).2
            + st.position.2 ∧
      (updatePortData st).2.2
          = pymod (st.direction + st.station_type.port_direction) 360) ∧
    updatePortData c1Station = (2, 4.5, 90) := by
  constructor
  · intro st
    refine ⟨?_, ?_, rfl⟩ <;> simp only [updatePortData, rotate2d] <;> ring
  · have hang : (90 : ℝ) * Real.pi / 180 = Real.pi / 2 := by ring
    have hfloor : ⌊((90 : ℝ) + 0) / 360⌋ = 0 := by
      rw [Int.floor_eq_zero_iff]
      constructor <;> norm_num
    simp only [updatePortData, c1Station, Station.make, stLoading]
    rw [hang]
    simp only [Real.cos_pi_div_two, Real.sin_pi_div_two, pymod, hfloor]
    norm_num

/-! ## 3D viewport camera (`src/ui/realtime_view.py`, `GLWidget`) -/

theorem mul_fin_four {α : Type} [AddCommMonoid α] [Mul α]
    (a11 a12 a13 a14 a21 a22 a23 a24 a31 a32 a33 a34 a41 a42 a43 a44
     b11 b12 b13 b14 b21 b22 b23 b24 b31 b32 b33 b34 b41 b42 b43 b44 : α) :
    !![a11, a12, a13, a14;
       a21, a22, a23, a24;
       a31, a32, a33, a34;
       a41, a42, a43, a44] * !![b11, b12, b13, b14;
                                b21, b22, b23, b24;
                                b31, b32, b33, b34;
                                b41, b42, b43, b44] =
    !![a11*b11 + a12*b21 + a13*b31 + a14*b41, a11*b12 + a12*b22 + a13*b32 + a14*b42,
       a11*b13 + a12*b23 + a13*b33 + a14*b43, a11*b14 + a12*b24 + a13*b34 + a14*b44;
       a21*b11 + a22*b21 + a23*b31 + a24*b41, a21*b12 + a22*b22 + a23*b32 + a24*b42,
       a21*b13 + a22*b23 + a23*b33 + a24*b43, a21*b14 + a22*b24 + a23*b34 + a24*b44;
       a31*b11 + a32*b21 + a33*b31 + a34*b41, a31*b12 + a32*b22 + a33*b32 + a34*b42,
       a31*b13 + a32*b23 + a33*b33 + a34*b43, a31*b14 + a32*b24 + a33*b34 + a34*b44;
       a41*b11 + a42*b21 + a43*b31 + a44*b41, a41*b12 + a42*b22 + a43*b32 + a44*b42,
       a41*b13 + a42*b23 + a43*b33 + a44*b43, a41*b14 + a42*b24 + a43*b34 + a44*b44] := by
  ext i j
  fin_cases i <;> fin_cases j
    <;> simp [Matrix.mul_apply, Matrix.dotProduct, Fin.sum_univ_succ, ← add_assoc]

theorem mulVec_fin_four {α : Type} [NonUnitalNonAssocSemiring α]
    (a11 a12 a13 a14 a21 a22 a23 a24 a31 a32 a33 a34 a41 a42 a43 a44 x y z w : α) :
    Matrix.mulVec !![a11, a12, a13, a14;
       a21, a22, a23, a24;
       a31, a32, a33, a34;
       a41, a42, a43, a44] ![x, y, z, w] =
    ![a11*x + a12*y + a13*z + a14*w,
      a21*x + a22*y + a23*z + a24*w,
      a31*x + a32*y + a33*z + a34*w,
      a41*x + a42*y + a43*z + a44*w] := by
  funext i
  fin_cases i
    <;> simp [Matrix.mulVec, Matrix.dotProduct, Fin.sum_univ_succ, ← add_assoc]

theorem vec4_eq {α : Type} {a0 a1 a2 a3 b0 b1 b2 b3 : α}
    (h0 : a0 = b0) (h1 : a1 = b1) (h2 : a2 = b2) (h3 : a3 = b3) :
    ![a0, a1, a2, a3] = ![b0, b1, b2, b3] := by
  subst_vars
  rfl

/-- `GLWidget` state: camera parameters, cached matrices, zoom/pan/
rotation settings and the widget geometry (`self.width()`/`height()`). -/
structure GLWidget where
  camera_rotation : ℝ × ℝ × ℝ
  camera_distance : ℝ
  camera_position : ℝ × ℝ × ℝ
  view_matrix : Matrix (Fin 4) (Fin 4) ℝ
  projection_matrix : Matrix (Fin 4) (Fin 4) ℝ
  min_zoom : ℝ
  max_zoom : ℝ
  zoom_speed : ℝ
  pan_speed : ℝ
  rotation_speed : ℝ
  map_size : ℤ
  width : ℝ
  height : ℝ

/-- `GLWidget.__init__` (widget geometry supplied by the host). -/
def GLWidget.make (width height : ℝ) : GLWidget :=
  { camera_rotation := (45, 45, 0), camera_distance := 15,
    camera_position := (-5, -5, 5), view_matrix := 1, projection_matrix := 1,
    min_zoom := 2.0, max_zoom := 50.0, zoom_speed := 1.1, pan_speed := 0.02,
    rotation_speed := 0.5, map_size := 10, width := width, height := height }

/-- `GLWidget._perspective_matrix(fovy, aspect, near, far)`. -/
noncomputable def perspectiveMatrix (fovy aspect near far : ℝ) :
    Matrix (Fin 4) (Fin 4) ℝ :=
  let f := 1 / Real.tan (fovy * Real.pi / 180 / 2)
  !![f / aspect, 0, 0, 0;
     0, f, 0, 0;
     0, 0, (far + near) / (near - far), 2 * far * near / (near - far);
     0, 0, -1, 0]

/-- `GLWidget.resizeGL` (records the new geometry, rebuilds the
projection matrix with `fovy=45`, `near=0.1`, `far=100`). -/
noncomputable def GLWidget.resizeGL (w : GLWidget) (width height : ℝ) : GLWidget :=
  { w with
    width := width
    height := height
    projection_matrix := perspectiveMatrix 45 (width / height) 0.1 100 }

/-- `GLWidget._create_view_matrix`: identity, then translation by the
negated camera position, tilt about X, orbit about Y, and the zoom
translation, composed with `np.dot` in that order. -/
noncomputable def createViewMatrix (w : GLWidget) : Matrix (Fin 4) (Fin 4) ℝ :=
  let trans_matrix : Matrix (Fin 4) (Fin 4) ℝ :=
    !![1, 0, 0, -w.camera_position.1;
       0, 1, 0, -w.camera_position.2.1;
       0, 0, 1, -w.camera_position.2.2;
       0, 0, 0, 1]
  let angle_x := w.camera_rotation.1 * Real.pi / 180
  let rot_x : Matrix (Fin 4) (Fin 4) ℝ :=
    !![1, 0, 0, 0;
       0, Real.cos angle_x, -Real.sin angle_x, 0;
       0, Real.sin angle_x, Real.cos angle_x, 0;
       0, 0, 0, 1]
  let angle_y := w.camera_rotation.2.1 * Real.pi / 180
  let rot_y : Matrix (Fin 4) (Fin 4) ℝ :=
    !![Real.cos angle_y, 0, Real.sin angle_y, 0;
       0, 1, 0, 0;
       -Real.sin angle_y, 0, Real.cos angle_y, 0;
       0, 0, 0, 1]
  let zoom_matrix : Matrix (Fin 4) (Fin 4) ℝ :=
    !![1, 0, 0, 0;
       0, 1, 0, 0;
       0, 0, 1, -w.camera_distance;
       0, 0, 0, 1]
  1 * trans_matrix * rot_x * rot_y * zoom_matrix

/-- The `self.view_matrix = self._create_view_matrix()` step performed
at the top of `paintGL` each frame. -/
noncomputable def GLWidget.updateViewMatrix (w : GLWidget) : GLWidget :=
  { w with view_matrix := createViewMatrix w }

open Classical in
/-- `GLWidget._screen_to_world(screen_x, screen_y)`: normalized device
coordinates, inverse of the cached projection·view product applied to
the clip-space point, division by the homogeneous coordinate when
nonzero, then the code's `ray_world + t * ray_world` step with
`t = -ray_world[2]` when `ray_world[2]` is nonzero; returns the first
three components. -/
noncomputable def screenToWorld (w : GLWidget) (screen_x screen_y : ℝ) : ℝ × ℝ × ℝ :=
  let x := 2 * screen_x / w.width - 1
  let y := 1 - 2 * screen_y / w.height
  let vp_matrix := w.projection_matrix * w.view_matrix
  let vp_inverse := vp_matrix⁻¹
  let ray_clip : Fin 4 → ℝ := ![x, y, -1, 1]
  let ray_world := vp_inverse.mulVec ray_clip
  let ray_world1 :=
    if ray_world 3 ≠ 0 then fun i => ray_world i / ray_world 3 else ray_world
  let ray_world2 :=
    if ray_world1 2 ≠ 0 then fun i => ray_world1 i + -(ray_world1 2) * ray_world1 i
    else ray_world1
  (ray_world2 0, ray_world2 1, ray_world2 2)

open Classical in
/-- `GLWidget.wheelEvent`: one wheel tick; zoom-in divides the distance
by `zoom_speed`, zoom-out divides by `1 / zoom_speed`; the change is
applied only when the result stays inside `[min_zoom, max_zoom]`, and
the camera position is then shifted by the difference between the
screen-center unprojections taken before and after the distance
change. -/
noncomputable def GLWidget.wheelEvent (w : GLWidget) (zoom_in : Bool) : GLWidget :=
  let zoom_factor := if zoom_in then w.zoom_speed else 1 / w.zoom_speed
  let new_distance := w.camera_distance / zoom_factor
  if w.min_zoom ≤ new_distance ∧ new_distance ≤ w.max_zoom then
    let world_pos_before := screenToWorld w (w.width / 2) (w.height / 2)
    let w1 := { w with camera_distance := new_distance }
    let world_pos_after := screenToWorld w1 (w1.width / 2) (w1.height / 2)
    { w1 with camera_position :=
        (w1.camera_position.1 + (world_pos_before.1 - world_pos_after.1),
         w1.camera_position.2.1 + (world_pos_before.2.1 - world_pos_after.2.1),
         w1.camera_position.2.2 + (world_pos_before.2.2 - world_pos_after.2.2)) }
  else w

/-- A sequence of wheel events applied in order. -/
noncomputable def applyWheels (w : GLWidget) : List Bool → GLWidget
  | [] => w
  | e :: es => applyWheels (w.wheelEvent e) es

/-- The initial widget at an 800×600 viewport. -/
noncomputable def initGLWidget : GLWidget := GLWidget.make 800 600

theorem wheelEvent_fields (w : GLWidget) (e : Bool) :
    (w.wheelEvent e).min_zoom = w.min_zoom ∧
    (w.wheelEvent e).max_zoom = w.max_zoom ∧
    (w.wheelEvent e).zoom_speed = w.zoom_speed := by
  simp only [GLWidget.wheelEvent]
  split <;> split <;> exact ⟨rfl, rfl, rfl⟩

theorem wheelEvent_distance (w : GLWidget) (e : Bool) :
    (w.wheelEvent e).camera_distance =
      if w.min_zoom ≤ w.camera_distance / (if e then w.zoom_speed else 1 / w.zoom_speed) ∧
          w.camera_distance / (if e then w.zoom_speed else 1 / w.zoom_speed) ≤ w.max_zoom
      then w.camera_distance / (if e then w.zoom_speed else 1 / w.zoom_speed)
      else w.camera_distance := by
  cases e <;> simp only [GLWidget.wheelEvent, Bool.false_eq_true, if_false, if_true] <;>
    split <;> rfl

theorem applyWheels_bounds (evs : List Bool) :
    ∀ w : GLWidget, w.min_zoom = 2 → w.max_zoom = 50 →
      2 ≤ w.camera_distance → w.camera_distance ≤ 50 →
      2 ≤ (applyWheels w evs).camera_distance ∧
        (applyWheels w evs).camera_distance ≤ 50 := by
  induction evs with
  | nil =>
    intro w _ _ h3 h4
    exact ⟨h3, h4⟩
  | cons e es ih =>
    intro w h1 h2 h3 h4
    rw [applyWheels]
    have hf := wheelEvent_fields w e
    have hd := wheelEvent_distance w e
    set q : ℝ := (if e then w.zoom_speed else 1 / w.zoom_speed) with hq
    refine ih _ ?_ ?_ ?_ ?_
    · rw [hf.1, h1]
    · rw [hf.2.1, h2]
    · rw [hd]
      split
      · next hc =>
        rw [← h1]
        exact hc.1
      · exact h3
    · rw [hd]
      split
      · next hc =>
        rw [← h2]
        exact hc.2
      · exact h4

/-- C6: from the initial camera (distance 15, `min_zoom = 2`,
`max_zoom = 50`, `zoom_speed = 1.1`), every sequence of wheel events
keeps the camera distance inside `[2, 50]`; one zoom-in tick from 15
succeeds and yields `15 / 1.1`; each step divides by the factor
(zoom-in) or multiplies by it (zoom-out) and is a no-op whenever the
result would leave `[min_zoom, max_zoom]` — in particular any zoom-in
whose result would drop below 2 leaves the distance unchanged. -/
theorem wheel_zoom_distance_clamped :
    (∀ evs : List Bool, 2 ≤ (applyWheels initGLWidget evs).camera_distance ∧
        (applyWheels initGLWidget evs).camera_distance ≤ 50) ∧
    ((initGLWidget.wheelEvent true).camera_distance = 15 / 1.1) ∧
    (∀ (w : GLWidget) (e : Bool),
      (w.wheelEvent e).camera_distance =
        if w.min_zoom ≤ w.camera_distance / (if e then w.zoom_speed else 1 / w.zoom_speed) ∧
            w.camera_distance / (if e then w.zoom_speed else 1 / w.zoom_speed) ≤ w.max_zoom
        then w.camera_distance / (if e then w.zoom_speed else 1 / w.zoom_speed)
        else w.camera_distance) ∧
    (∀ w : GLWidget, w.zoom_speed = 1.1 →
      (w.wheelEvent false).camera_distance
        = if w.min_zoom ≤ w.camera_distance * 1.1 ∧ w.camera_distance * 1.1 ≤ w.max_zoom
          then w.camera_distance * 1.1 else w.camera_distance) ∧
    (∀ w : GLWidget, w.min_zoom = 2 → w.zoom_speed = 1.1 →
      w.camera_distance / 1.1 < 2 →
      (w.wheelEvent true).camera_distance = w.camera_distance) := by
  refine ⟨?_, ?_, wheelEvent_distance, ?_, ?_⟩
  · intro evs
    exact applyWheels_bounds evs initGLWidget
      (by norm_num [initGLWidget, GLWidget.make])
      (by norm_num [initGLWidget, GLWidget.make])
      (by norm_num [initGLWidget, GLWidget.make])
      (by norm_num [initGLWidget, GLWidget.make])
  · rw [wheelEvent_distance]
    simp only [initGLWidget, GLWidget.make, if_true]
    norm_num
  · intro w hs
    rw [wheelEvent_distance, hs]
    have h11 : w.camera_distance / (1 / (1.1 : ℝ)) = w.camera_distance * 1.1 := by
      rw [div_div_eq_mul_div, mul_comm, mul_div_assoc]
      norm_num
    simp only [Bool.false_eq_true, if_false, h11]
  · intro w h1 h2 h3
    rw [wheelEvent_distance, h1, h2]
    rw [if_pos rfl]
    rw [if_neg]
    intro hc
    exact absurd hc.1 (by linarith)

/-- Witness for C6: a zoom-in from distance 2.1 (which would land at
`2.1 / 1.1 < 2`) is a no-op, and the distance stays in `[2, 50]` after
two zoom-in ticks from the initial state. -/
theorem wheel_zoom_distance_clamped_witness :
    (({ initGLWidget with camera_distance := 2.1 }).wheelEvent true).camera_distance = 2.1 ∧
    2 ≤ (applyWheels initGLWidget [true, true]).camera_distance :=
  ⟨wheel_zoom_distance_clamped.2.2.2.2 { initGLWidget with camera_distance := 2.1 }
      (by norm_num [initGLWidget, GLWidget.make])
      (by norm_num [initGLWidget, GLWidget.make])
      (by norm_num),
    (wheel_zoom_distance_clamped.1 [true, true]).1⟩

theorem tan_pi_div_eight_pos : 0 < Real.tan (Real.pi / 8) :=
  Real.tan_pos_of_pos_of_lt_pi_div_two (by positivity) (by linarith [Real.pi_pos])

theorem vp_center_inverse (δ : ℝ) :
    (perspectiveMatrix 45 (800 / 600) 0.1 100 *
        !![1, 0, 0, 0; 0, 1, 0, 0; 0, 0, 1, -δ; 0, 0, 0, 1])⁻¹
      = !![(4 / 3) * Real.tan (Real.pi / 8), 0, 0, 0;
           0, Real.tan (Real.pi / 8), 0, 0;
           0, 0, -(999 / 200) * δ, (1001 * δ - 200) / 200;
           0, 0, -(999 / 200), 1001 / 200] := by
  have ht : Real.tan (Real.pi / 8) ≠ 0 := ne_of_gt tan_pi_div_eight_pos
  have harg : (45 : ℝ) * Real.pi / 180 / 2 = Real.pi / 8 := by ring
  have hP : perspectiveMatrix 45 (800 / 600) 0.1 100
      = !![3 / 4 * (Real.tan (Real.pi / 8))⁻¹, 0, 0, 0;
           0, (Real.tan (Real.pi / 8))⁻¹, 0, 0;
           0, 0, -(1001 / 999), -(200 / 999);
           0, 0, -1, 0] := by
    simp only [perspectiveMatrix, harg]
    refine congrArg Matrix.of (vec4_eq (vec4_eq ?_ ?_ ?_ ?_) (vec4_eq ?_ ?_ ?_ ?_)
      (vec4_eq ?_ ?_ ?_ ?_) (vec4_eq ?_ ?_ ?_ ?_)) <;> ring1
  have hPT : (!![3 / 4 * (Real.tan (Real.pi / 8))⁻¹, 0, 0, 0;
                 0, (Real.tan (Real.pi / 8))⁻¹, 0, 0;
                 0, 0, -(1001 / 999), -(200 / 999);
                 0, 0, -1, 0] *
          !![(1 : ℝ), 0, 0, 0; 0, 1, 0, 0; 0, 0, 1, -δ; 0, 0, 0, 1])
      = !![3 / 4 * (Real.tan (Real.pi / 8))⁻¹, 0, 0, 0;
           0, (Real.tan (Real.pi / 8))⁻¹, 0, 0;
           0, 0, -(1001 / 999), (1001 / 999) * δ - 200 / 999;
           0, 0, -1, δ] := by
    rw [mul_fin_four]
    refine congrArg Matrix.of (vec4_eq (vec4_eq ?_ ?_ ?_ ?_) (vec4_eq ?_ ?_ ?_ ?_)
      (vec4_eq ?_ ?_ ?_ ?_) (vec4_eq ?_ ?_ ?_ ?_)) <;> ring1
  apply Matrix.inv_eq_right_inv
  rw [hP, hPT, mul_fin_four]
  have hone : (1 : Matrix (Fin 4) (Fin 4) ℝ)
      = !![1, 0, 0, 0; 0, 1, 0, 0; 0, 0, 1, 0; 0, 0, 0, 1] := by
    ext i j
    fin_cases i <;> fin_cases j <;> rfl
  rw [hone]
  refine congrArg Matrix.of (vec4_eq (vec4_eq ?_ ?_ ?_ ?_) (vec4_eq ?_ ?_ ?_ ?_)
    (vec4_eq ?_ ?_ ?_ ?_) (vec4_eq ?_ ?_ ?_ ?_)) <;>
    first
    | ring1
    | (ring_nf
       exact mul_inv_cancel₀ (by
         rw [show Real.pi * (1 / 8) = Real.pi / 8 by ring]
         exact ht))

theorem screenToWorld_center (w : GLWidget) (δ : ℝ)
    (hview : w.view_matrix = !![1, 0, 0, 0; 0, 1, 0, 0; 0, 0, 1, -δ; 0, 0, 0, 1])
    (hproj : w.projection_matrix = perspectiveMatrix 45 (800 / 600) 0.1 100)
    (hw : w.width = 800) (hh : w.height = 600) (hδ : δ ≠ 1 / 10) :
    screenToWorld w (w.width / 2) (w.height / 2)
      = (0, 0, (1 - (δ - 1 / 10)) * (δ - 1 / 10)) := by
  have h0 : 2 * (w.width / 2) / w.width - 1 = 0 := by
    rw [hw]
    norm_num
  have h1 : 1 - 2 * (w.height / 2) / w.height = 0 := by
    rw [hh]
    norm_num
  have hu : Matrix.mulVec
      !![(4 / 3) * Real.tan (Real.pi / 8), 0, 0, 0;
         0, Real.tan (Real.pi / 8), 0, 0;
         0, 0, -(999 / 200) * δ, (1001 * δ - 200) / 200;
         0, 0, -(999 / 200), 1001 / 200] ![(0 : ℝ), 0, -1, 1]
      = ![0, 0, 10 * δ - 1, 10] := by
    rw [mulVec_fin_four]
    exact vec4_eq (by ring) (by ring) (by ring) (by ring)
  have hzero : ((10 : ℝ) * δ - 1) / 10 ≠ 0 := by
    intro hcontra
    apply hδ
    rw [div_eq_zero_iff] at hcontra
    rcases hcontra with hcontra | hcontra
    · linarith
    · norm_num at hcontra
  simp only [screenToWorld]
  rw [hproj, hview, h0, h1, vp_center_inverse δ, hu]
  split
  · split
    · refine Prod.ext ?_ (Prod.ext ?_ ?_)
      · show (0 : ℝ) / 10 + -((10 * δ - 1) / 10) * ((0 : ℝ) / 10) = 0
        norm_num
      · show (0 : ℝ) / 10 + -((10 * δ - 1) / 10) * ((0 : ℝ) / 10) = 0
        norm_num
      · show (10 * δ - 1) / 10 + -((10 * δ - 1) / 10) * ((10 * δ - 1) / 10)
            = (1 - (δ - 1 / 10)) * (δ - 1 / 10)
        ring
    · next hcond2 =>
      exact absurd (show ((10 : ℝ) * δ - 1) / 10 ≠ 0 from hzero) hcond2
  · next hcond1 =>
    exact absurd (show (10 : ℝ) ≠ 0 by norm_num) hcond1

theorem screenToWorld_congr (w1 w2 : GLWidget) (hv : w1.view_matrix = w2.view_matrix)
    (hp : w1.projection_matrix = w2.projection_matrix) (hw : w1.width = w2.width)
    (hh : w1.height = w2.height) (sx sy : ℝ) :
    screenToWorld w1 sx sy = screenToWorld w2 sx sy := by
  simp only [screenToWorld, hv, hp, hw, hh]

set_option maxHeartbeats 1000000 in
theorem createViewMatrix_zero (w : GLWidget)
    (hrot : w.camera_rotation = (0, 0, 0)) (hpos : w.camera_position = (0, 0, 0)) :
    createViewMatrix w
      = !![1, 0, 0, 0; 0, 1, 0, 0; 0, 0, 1, -w.camera_distance; 0, 0, 0, 1] := by
  simp only [createViewMatrix, hrot, hpos]
  norm_num

/-- The C5/C7 camera state: 800×600 viewport with its perspective
projection, rotation zeroed and camera position at the origin. -/
noncomputable def c5Widget : GLWidget :=
  { (GLWidget.make 800 600).resizeGL 800 600 with
    camera_rotation := (0, 0, 0)
    camera_position := (0, 0, 0) }

/-- The state after a frame has cached the view matrix. -/
noncomputable def c5S1 : GLWidget := c5Widget.updateViewMatrix

/-- The state right after one zoom-in wheel tick. -/
noncomputable def c5S2 : GLWidget := c5S1.wheelEvent true

/-- The state after the next frame refreshes the view matrix. -/
noncomputable def c5S3 : GLWidget := c5S2.updateViewMatrix

theorem c5S2_fields :
    c5S2.camera_rotation = (0, 0, 0) ∧
    c5S2.camera_position = (0, 0, 0) ∧
    c5S2.camera_distance = 15 / 1.1 ∧
    c5S2.projection_matrix = perspectiveMatrix 45 (800 / 600) 0.1 100 ∧
    c5S2.width = 800 ∧ c5S2.height = 600 := by
  have hsame : screenToWorld { c5S1 with camera_distance := c5S1.camera_distance / c5S1.zoom_speed }
      (c5S1.width / 2) (c5S1.height / 2)
      = screenToWorld c5S1 (c5S1.width / 2) (c5S1.height / 2) :=
    screenToWorld_congr _ _ rfl rfl rfl rfl _ _
  simp only [c5S2, GLWidget.wheelEvent]
  rw [if_pos trivial]
  rw [if_pos (show c5S1.min_zoom ≤ c5S1.camera_distance / c5S1.zoom_speed ∧
      c5S1.camera_distance / c5S1.zoom_speed ≤ c5S1.max_zoom from
    ⟨by show (2.0 : ℝ) ≤ 15 / 1.1; norm_num, by show (15 : ℝ) / 1.1 ≤ 50.0; norm_num⟩)]
  refine ⟨rfl, ?_, rfl, rfl, rfl, rfl⟩
  rw [hsame]
  simp only [sub_self, add_zero]
  rfl

theorem c5S1_unproject :
    screenToWorld c5S1 (c5S1.width / 2) (c5S1.height / 2) = (0, 0, -(20711 / 100)) := by
  have h := screenToWorld_center c5S1 15
    (createViewMatrix_zero c5Widget rfl rfl :
      c5S1.view_matrix = !![1, 0, 0, 0; 0, 1, 0, 0; 0, 0, 1, -(15 : ℝ); 0, 0, 0, 1])
    rfl rfl rfl (by norm_num)
  rw [h]
  norm_num

theorem c5S3_unproject :
    screenToWorld c5S3 (c5S3.width / 2) (c5S3.height / 2)
      = (0, 0, -(2053331 / 12100)) := by
  have hview : c5S3.view_matrix
      = !![1, 0, 0, 0; 0, 1, 0, 0; 0, 0, 1, -c5S2.camera_distance; 0, 0, 0, 1] :=
    createViewMatrix_zero c5S2 c5S2_fields.1 c5S2_fields.2.1
  rw [c5S2_fields.2.2.1] at hview
  have h := screenToWorld_center c5S3 (15 / 1.1)
    (by
      rw [show c5S3.view_matrix = createViewMatrix c5S2 from rfl] at hview ⊢
      rw [hview])
    (c5S2_fields.2.2.2.1 : c5S3.projection_matrix = perspectiveMatrix 45 (800 / 600) 0.1 100)
    (c5S2_fields.2.2.2.2.1 : c5S3.width = 800)
    (c5S2_fields.2.2.2.2.2 : c5S3.height = 600)
    (by norm_num)
  rw [h]
  norm_num

/-- C5 failing-input theorem: from the camera state `c5Widget`
(rotation zeroed, position at the origin, distance 15, the 800×600
perspective projection, view matrix cached by a frame), one zoom-in
wheel tick is accepted (`15 → 15/1.1`) yet compensates the camera
position by exactly zero — both unprojections inside `wheelEvent` read
the same cached view matrix — and once the next frame rebuilds the view
matrix the world point under the screen center has moved from
`z = -207.11` to `z ≈ -169.70` after projection scaling, i.e. by about
37.4 world units, far beyond the claimed 1e-4 tolerance. -/
theorem zoom_does_not_preserve_center_world_point :
    c5S2.camera_distance = 15 / 1.1 ∧
    c5S2.camera_position = (0, 0, 0) ∧
    screenToWorld c5S1 (c5S1.width / 2) (c5S1.height / 2) = (0, 0, -(20711 / 100)) ∧
    screenToWorld c5S3 (c5S3.width / 2) (c5S3.height / 2) = (0, 0, -(2053331 / 12100)) ∧
    |(screenToWorld c5S1 (c5S1.width / 2) (c5S1.height / 2)).2.2
        - (screenToWorld c5S3 (c5S3.width / 2) (c5S3.height / 2)).2.2| > 1e-4 := by
  refine ⟨c5S2_fields.2.2.1, c5S2_fields.2.1, c5S1_unproject, c5S3_unproject, ?_⟩
  rw [c5S1_unproject, c5S3_unproject]
  show |(-(20711 / 100) : ℝ) - -(2053331 / 12100)| > 1e-4
  rw [show ((-(20711 / 100) : ℝ) - -(2053331 / 12100)) = -(452700 / 12100) by norm_num]
  rw [abs_neg, abs_of_pos (by norm_num)]
  norm_num

/-- C7 failing-input theorem: at the same camera state, the value
returned by `_screen_to_world` for the screen center has z-coordinate
`-207.11`: the `ray_world + t * ray_world` step scales the point
instead of intersecting the ray with the ground plane, so the result
does not lie on `z = 0` (and no "no intersection" report exists in the
code). -/
theorem screen_to_world_point_off_ground_plane :
    (screenToWorld c5S1 (c5S1.width / 2) (c5S1.height / 2)).2.2 = -(20711 / 100) ∧
    (screenToWorld c5S1 (c5S1.width / 2) (c5S1.height / 2)).2.2 ≠ 0 := by
  constructor
  · rw [c5S1_unproject]
  · rw [c5S1_unproject]
    norm_num

/-! ## 2D proxy holder and the per-frame 3D render
(`src/components/qclass_holder.py`, `GLWidget.paintGL`) -/

/-- `QPathNode`: UI proxy wrapping a backend path node. -/
structure QPathNodeUI where
  node : PathNode

/-- `QStation`: UI proxy wrapping a backend station, owning the derived
port proxy (when one was created). -/
structure QStationUI where
  station : Station
  qport : Option QPathNodeUI

/-- `QAGV`: UI proxy wrapping a backend AGV; the constructor copies
position and direction into the proxy. -/
structure QAGVUI where
  agv : AGV
  position : ℝ × ℝ
  direction : ℝ

/-- `QClassHolder`: frontend storage, referencing the backend holder. -/
structure QClassHolder where
  class_holder : ClassHolder
  qstations : List (ℤ × QStationUI)
  qagvs : List (ℤ × QAGVUI)
  qpath_nodes : List (ℤ × QPathNodeUI)

/-- `QClassHolder.get_all_qstations`. -/
def QClassHolder.get_all_qstations (q : QClassHolder) : List QStationUI :=
  dvalues q.qstations

/-- `QClassHolder.get_all_qagvs`. -/
def QClassHolder.get_all_qagvs (q : QClassHolder) : List QAGVUI :=
  dvalues q.qagvs

/-- `QClassHolder.get_all_qpath_nodes`. -/
def QClassHolder.get_all_qpath_nodes (q : QClassHolder) : List QPathNodeUI :=
  dvalues q.qpath_nodes

/-- Translation matrix with `[0:3, 3] = [x, y, z]`. -/
noncomputable def transMat (x y z : ℝ) : Matrix (Fin 4) (Fin 4) ℝ :=
  !![1, 0, 0, x; 0, 1, 0, y; 0, 0, 1, z; 0, 0, 0, 1]

/-- Rotation about the Z axis by an angle given in degrees
(`np.radians` then the 2×2 cos/sin block). -/
noncomputable def rotZMat (degrees : ℝ) : Matrix (Fin 4) (Fin 4) ℝ :=
  let angle := degrees * Real.pi / 180
  !![Real.cos angle, -Real.sin angle, 0, 0;
     Real.sin angle, Real.cos angle, 0, 0;
     0, 0, 1, 0;
     0, 0, 0, 1]

/-- One emitted primitive of a frame: the grid, or an entity drawn
under a model-view matrix. -/
inductive DrawCall where
  | grid (map_size : ℤ)
  | station (modelview : Matrix (Fin 4) (Fin 4) ℝ) (st : Station)
  | port (modelview : Matrix (Fin 4) (Fin 4) ℝ) (node : PathNode)
  | pathNode (modelview : Matrix (Fin 4) (Fin 4) ℝ) (node : PathNode)
  | agv (modelview : Matrix (Fin 4) (Fin 4) ℝ) (a : AGV)

/-- `GLWidget._draw_station`: station model matrix (translation to the
station position, initial −90° alignment, direction rotation), then the
port cylinder at the derived port's position/direction when present. -/
noncomputable def drawStation (view : Matrix (Fin 4) (Fin 4) ℝ) (q : QStationUI) :
    List DrawCall :=
  let model := transMat q.station.position.1 q.station.position.2 0
    * rotZMat (-90) * rotZMat q.station.direction
  let base := [DrawCall.station (view * model) q.station]
  match q.qport with
  | some qp =>
    let port_model := transMat qp.node.position.1 qp.node.position.2 0.1
      * rotZMat qp.node.direction
    base ++ [DrawCall.port (view * port_model) qp.node]
  | none => base

/-- `GLWidget._draw_path_node`. -/
noncomputable def drawPathNode (view : Matrix (Fin 4) (Fin 4) ℝ) (q : QPathNodeUI) :
    DrawCall :=
  let model := transMat q.node.position.1 q.node.position.2 0.1 * rotZMat q.node.direction
  DrawCall.pathNode (view * model) q.node

/-- `GLWidget._draw_agv` called from the `paintGL` AGV loop; the proxy
fields copied at construction feed the model matrix. -/
noncomputable def drawAGV (view : Matrix (Fin 4) (Fin 4) ℝ) (q : QAGVUI) : DrawCall :=
  let model := transMat q.position.1 q.position.2 0.1
    * rotZMat (-90) * rotZMat q.direction
  DrawCall.agv (view * model) q.agv

/-- The render program state: widget plus the holders it reads. -/
structure RenderApp where
  widget : GLWidget
  qholder : QClassHolder

/-- `GLWidget.paintGL`: refresh the cached view matrix from the camera
state, then draw the grid and every station (with its port), path node
and AGV found in the holder; returns the updated program state and the
emitted draw list. -/
noncomputable def paintGL (app : RenderApp) : RenderApp × List DrawCall :=
  let w := { app.widget with view_matrix := createViewMatrix app.widget }
  let view := w.view_matrix
  let calls := [DrawCall.grid w.map_size]
    ++ (app.qholder.get_all_qstations.map (drawStation view)).flatten
    ++ app.qholder.get_all_qpath_nodes.map (drawPathNode view)
    ++ app.qholder.get_all_qagvs.map (drawAGV view)
  ({ app with widget := w }, calls)

/-- C9: one frame of rendering is read-only with respect to the entity
store: it leaves the frontend holder, the backend holder, and hence
every backend entity's fields and the id/name maps, untouched — the
only state it writes is the widget's cached view matrix. -/
theorem paintGL_read_only (app : RenderApp) :
    (paintGL app).1.qholder = app.qholder ∧
    (paintGL app).1.qholder.class_holder.stations = app.qholder.class_holder.stations ∧
    (paintGL app).1.qholder.class_holder.stations_by_name
      = app.qholder.class_holder.stations_by_name ∧
    (paintGL app).1.qholder.class_holder.agvs = app.qholder.class_holder.agvs ∧
    (paintGL app).1.qholder.class_holder.agvs_by_name
      = app.qholder.class_holder.agvs_by_name ∧
    (paintGL app).1.qholder.class_holder.path_nodes
      = app.qholder.class_holder.path_nodes ∧
    (paintGL app).1.widget
      = { app.widget with view_matrix := createViewMatrix app.widget } :=
  ⟨rfl, rfl, rfl, rfl, rfl, rfl, rfl⟩

/-! ## Persistence round trip (`src/ui/file_management.py`) -/

/-- One `<node>` element of the persisted document: id, x, y,
direction, as written by `MapExporter.save_map`. -/
structure SavedNode where
  id : ℤ
  x : ℝ
  y : ℝ
  direction : ℝ

/-- The `path_nodes` section `save_map` emits: one element per stored
node with its id, position and direction. -/
def exportPathNodes (h : ClassHolder) : List SavedNode :=
  h.get_all_path_nodes.map
    (fun node => ⟨node.id.getD 0, node.position.1, node.position.2, node.direction⟩)

/-- `MapLoader.clear_existing_data`: empties the stores and resets the
id managers. -/
def clear_existing_data (h : ClassHolder) : ClassHolder :=
  { h with
    stations := []
    stations_by_name := []
    agvs := []
    agvs_by_name := []
    path_nodes := []
    station_id_manager := h.station_id_manager.reset
    agv_id_manager := h.agv_id_manager.reset
    path_node_id_manager := h.path_node_id_manager.reset }

/-- One iteration of the `load_map` path-node loop, up to the point it
dies: the saved id is passed positionally into `PathNode(x, y, node_id)`
— i.e. into the `direction` parameter, leaving `id=None` — and
`class_holder.add_path_node` (line 132) stores the node under a freshly
allocated id.  The next statement, `self.qclass_holder.add_path_node(node)`
(line 135), raises `AttributeError` — `QClassHolder` defines only
`add_qpath_node` — so line 136's `qnode.set_direction(direction)` never
runs: the stored node keeps the saved id in its direction field. -/
def loadPathNode (h : ClassHolder) (s : SavedNode) : ClassHolder :=
  let node := PathNode.make s.x s.y (s.id : ℝ)
  (h.add_path_node node).1

/-- The backend effect of `load_map` on the path-node section, paired
with whether the load survived: with no saved nodes the loop body never
runs (`true`); otherwise the first iteration's `AttributeError` aborts
`load_map` after that iteration's backend insertion (`false`). -/
def loadPathNodes (h : ClassHolder) (saved : List SavedNode) : ClassHolder × Bool :=
  match saved with
  | [] => (h, true)
  | s :: _ => (loadPathNode h s, false)

/-- Export, clear, reload — the round trip of the path-node store. -/
def roundTripPathNodes (h : ClassHolder) : ClassHolder × Bool :=
  loadPathNodes (clear_existing_data h) (exportPathNodes h)

/-- A store holding a single path node with id 3 (as after the user
created three nodes and deleted the first two). -/
def c3Holder : ClassHolder :=
  { ClassHolder.make with
    path_nodes := [(3, PathNode.make 1 2 90 (some 3))]
    path_node_id_manager := ⟨3⟩ }

/-- C3 failing-input theorem: reloading the persisted document built
from `c3Holder` aborts (the `qclass_holder.add_path_node` call does not
exist), and the backend store it leaves behind has lost the node's
identity: the saved id 3 resolves to nothing, and the node sits under
the freshly allocated id 1 with its direction field holding the saved
id 3 — not the saved direction 90, which is never restored because the
`set_direction` call sits after the crashing line. -/
theorem path_node_id_lost_on_reload :
    (roundTripPathNodes c3Holder).2 = false ∧
    (roundTripPathNodes c3Holder).1.get_path_node_by_id 3 = none ∧
    (∃ n, (roundTripPathNodes c3Holder).1.get_path_node_by_id 1 = some n ∧
      n.id = some 1 ∧ n.position = (1, 2) ∧ n.direction = 3 ∧ ¬ n.direction = 90) := by
  refine ⟨rfl, ?_, PathNode.make 1 2 ((3 : ℤ) : ℝ) (some 1), ?_, rfl, rfl, ?_, ?_⟩
  · simp [roundTripPathNodes, c3Holder, exportPathNodes, clear_existing_data,
      loadPathNodes, loadPathNode, ClassHolder.make, ClassHolder.add_path_node,
      ClassHolder.get_all_path_nodes, ClassHolder.get_path_node_by_id,
      PathNode.make, IDManager.make, IDManager.reset, IDManager.get_new_id,
      dvalues, dassign, dget]
  · simp [roundTripPathNodes, c3Holder, exportPathNodes, clear_existing_data,
      loadPathNodes, loadPathNode, ClassHolder.make, ClassHolder.add_path_node,
      ClassHolder.get_all_path_nodes, ClassHolder.get_path_node_by_id,
      PathNode.make, IDManager.make, IDManager.reset, IDManager.get_new_id,
      dvalues, dassign, dget]
  · show ((3 : ℤ) : ℝ) = 3
    norm_num
  · show ¬ ((3 : ℤ) : ℝ) = 90
    norm_num
